import Mathlib

/-!
Shallow embedding of the ChronoChat Prime core: the chat-with-gemini
edge function (`serve`), the reward/streak computation inlined in it,
the shop purchase handler (`purchaseItem` in PointsDisplay), and the
title truncation in `sendMessage` (ChatInterface).

Dates: the source compares ISO date strings of the form YYYY-MM-DD
(`last_activity_date`, `today`, `yesterdayStr`).  We model a calendar
date as an integer day number; string equality of two ISO dates is
equality of their day numbers, and `yesterday` is `today - 1`.
-/

/-- Message role, matching `role: 'user' | 'assistant'`. -/
inductive Role where
| user
| assistant
deriving DecidableEq, Repr

/-- A row of the `messages` table, with the metadata columns the edge
function writes on assistant turns. -/
structure Message where
  content : String
  role : Role
  tokens_used : Option Nat
  response_time_ms : Option Nat
  points_awarded : Option Int
deriving DecidableEq, Repr

/-- A row of the `user_points` table (the per-user ledger). -/
structure UserPoints where
  total_points : Int
  points_spent : Int
  current_streak : Int
  last_activity_date : Option Int
deriving DecidableEq, Repr

/-- The response style requested by the client (`style` field). -/
inductive Style where
| styleDefault
| creative
| professional
| casual
| technical
deriving DecidableEq, Repr

/-- The provider's reply as the orchestrator observes it: HTTP success
flag, candidate texts, and `usageMetadata.totalTokenCount`. -/
structure GeminiResponse where
  ok : Bool
  candidates : List String
  totalTokenCount : Nat
deriving DecidableEq, Repr

/-- The success payload the edge function returns to the caller. -/
structure ChatResponse where
  response : String
  tokensUsed : Nat
  responseTime : Nat
  pointsAwarded : Int
deriving DecidableEq, Repr

/-- The persistent-store state visible to one request: the messages of
the conversation (ordered by creation time) and the caller's ledger
row, if one exists. -/
structure Db where
  messages : List Message
  user_points : Option UserPoints
deriving DecidableEq, Repr

/-- The system prompt selected by the `switch (style)` block; every
style other than the four named ones keeps the default prompt. -/
def systemPromptFor (style : Style) : String :=
  match style with
  | Style.creative => "You are a creative and imaginative AI assistant. Respond with flair, creativity, and engaging storytelling elements."
  | Style.professional => "You are a professional AI assistant. Provide formal, structured, and business-appropriate responses."
  | Style.casual => "You are a casual and friendly AI assistant. Use a relaxed, conversational tone with occasional humor."
  | Style.technical => "You are a technical expert AI assistant. Provide detailed, precise, and technically accurate responses."
  | Style.styleDefault => "You are a helpful AI assistant powered by Gemini 2.5 Flash. Provide accurate, helpful, and engaging responses."

/-- The reward/streak computation inlined in the edge function (lines
539-563): `pointsAwarded` starts at 1 and `newStreak` at 1; if
`last_activity_date` equals yesterday the streak increments and 5
bonus points are added; if it equals today the streak and award are
kept at their same-day values.  Returns `(pointsAwarded, newStreak)`. -/
def computeReward (lastActivityDate : Option Int) (currentStreak : Int)
    (today : Int) : Int × Int :=
  let yesterday : Int := today - 1
  if lastActivityDate = some yesterday then
    (1 + 5, currentStreak + 1)
  else if lastActivityDate = some today then
    (1, currentStreak)
  else
    (1, 1)

/-- The ledger update the edge function performs when a ledger row
exists (lines 565-583): charge 10 points if boosted, clamp the new
total at zero, accumulate `points_spent`, store the new streak and
stamp today as `last_activity_date`. -/
def applyServeReward (up : UserPoints) (today : Int) (boost : Bool) :
    UserPoints :=
  let r := computeReward up.last_activity_date up.current_streak today
  let pointsCost : Int := if boost then 10 else 0
  ⟨max 0 (up.total_points + r.1 - pointsCost),
   up.points_spent + pointsCost, r.2, some today⟩

/-- The ledger effect of `purchaseItem` in PointsDisplay: if the user
cannot afford the item the purchase is rejected and the ledger is
untouched; otherwise the cost is debited (no clamp here - the guard
makes it unnecessary) and added to `points_spent`.  The append-only
`purchases` log row is not modelled (no claim reads it). -/
def purchaseItem (up : UserPoints) (cost : Int) : UserPoints :=
  if up.total_points < cost then up
  else ⟨up.total_points - cost, up.points_spent + cost,
        up.current_streak, up.last_activity_date⟩

/-- One ledger update: either a serve-side reward/charge or a shop
purchase. -/
inductive LedgerOp where
| serveUpdate (today : Int) (boost : Bool)
| purchase (cost : Int)
deriving DecidableEq, Repr

/-- Apply one ledger update. -/
def applyOp (up : UserPoints) (op : LedgerOp) : UserPoints :=
  match op with
  | LedgerOp.serveUpdate today boost => applyServeReward up today boost
  | LedgerOp.purchase cost => purchaseItem up cost

/-- The chat-with-gemini edge function.  Inputs are the request fields
(`message`, whether a conversation id was supplied, `style`, `boost`),
the environment the handler samples (today's date, the measured
response time, the provider's reply) and the store state; output is
the updated store state and either an error payload or the success
payload.  The user-message insert (step 4) and the ledger/assistant
writes are modelled as succeeding; the provider call's failure modes
(non-success status, zero candidates) are taken from its reply. -/
def serve (authed : Bool) (message : String) (conversationIdPresent : Bool)
    (style : Style) (boost : Bool) (today : Int) (responseTime : Nat)
    (gemini : GeminiResponse) (db : Db) :
    Db × Except String ChatResponse :=
  if authed = false then
    (db, Except.error "Unauthorized")
  else if message = "" ∨ conversationIdPresent = false then
    (db, Except.error "Message and conversation ID are required")
  else
    let _systemPrompt := systemPromptFor style
    let db1 : Db := ⟨db.messages ++ [⟨message, Role.user, none, none, none⟩],
                     db.user_points⟩
    if gemini.ok = false then
      (db1, Except.error "Failed to get response from Gemini")
    else
      match gemini.candidates with
      | [] => (db1, Except.error "No response generated from Gemini")
      | aiResponse :: _ =>
        let tokensUsed := gemini.totalTokenCount
        match db1.user_points with
        | none =>
          let db2 : Db := ⟨db1.messages ++
            [⟨aiResponse, Role.assistant, some tokensUsed,
              some responseTime, some 1⟩], none⟩
          (db2, Except.ok ⟨aiResponse, tokensUsed, responseTime, 1⟩)
        | some up =>
          let pointsAwarded :=
            (computeReward up.last_activity_date up.current_streak today).1
          let up2 := applyServeReward up today boost
          let db2 : Db := ⟨db1.messages ++
            [⟨aiResponse, Role.assistant, some tokensUsed,
              some responseTime, some pointsAwarded⟩], some up2⟩
          (db2, Except.ok ⟨aiResponse, tokensUsed, responseTime,
                           pointsAwarded⟩)

/-- Client-side regeneration (`regenerateResponse` in ChatInterface):
it re-invokes the same chat-with-gemini function, passing the stored
user message's content as the new `message`. -/
def regenerateServe (authed : Bool) (stored : Message)
    (conversationIdPresent : Bool) (style : Style) (boost : Bool)
    (today : Int) (responseTime : Nat) (gemini : GeminiResponse)
    (db : Db) : Db × Except String ChatResponse :=
  serve authed stored.content conversationIdPresent style boost today
    responseTime gemini db

/-- The three-character ellipsis marker appended by `sendMessage`. -/
def ellipsisMarker : List Char := ['.', '.', '.']

/-- Title auto-set from the first message (`sendMessage` in
ChatInterface): messages longer than 50 characters are cut to their
first 47 characters and the ellipsis marker is appended. -/
def autoTitle (userMessage : List Char) : List Char :=
  if userMessage.length > 50 then
    userMessage.take 47 ++ ellipsisMarker
  else
    userMessage

/-! ### Helper lemmas characterizing the paths through `serve` -/

/-- Success path of `serve` when the caller has no ledger row. -/
theorem serve_ok_none (message : String) (style : Style) (boost : Bool)
    (today : Int) (rt : Nat) (g : GeminiResponse) (db : Db)
    (hm : message ≠ "") (hok : g.ok = true) (c : String) (cs : List String)
    (hcand : g.candidates = c :: cs) (hup : db.user_points = none) :
    serve true message true style boost today rt g db =
      (⟨db.messages ++ [⟨message, Role.user, none, none, none⟩,
         ⟨c, Role.assistant, some g.totalTokenCount, some rt, some 1⟩], none⟩,
       Except.ok ⟨c, g.totalTokenCount, rt, 1⟩) := by
  simp [serve, hm, hok, hcand, hup, List.append_assoc]

/-- Success path of `serve` when the caller has a ledger row. -/
theorem serve_ok_some (message : String) (style : Style) (boost : Bool)
    (today : Int) (rt : Nat) (g : GeminiResponse) (db : Db) (up : UserPoints)
    (hm : message ≠ "") (hok : g.ok = true) (c : String) (cs : List String)
    (hcand : g.candidates = c :: cs) (hup : db.user_points = some up) :
    serve true message true style boost today rt g db =
      (⟨db.messages ++ [⟨message, Role.user, none, none, none⟩,
         ⟨c, Role.assistant, some g.totalTokenCount, some rt,
          some (computeReward up.last_activity_date up.current_streak today).1⟩],
        some (applyServeReward up today boost)⟩,
       Except.ok ⟨c, g.totalTokenCount, rt,
         (computeReward up.last_activity_date up.current_streak today).1⟩) := by
  simp [serve, hm, hok, hcand, hup, List.append_assoc]

/-- The award computed by `computeReward` is 1 or 6. -/
theorem computeReward_fst (last : Option Int) (streak today : Int) :
    (computeReward last streak today).1 = 1 ∨
    (computeReward last streak today).1 = 6 := by
  by_cases h1 : last = some (today - 1)
  · right
    simp [computeReward, h1]
  · left
    have h3 : ¬ today = today - 1 := by omega
    by_cases h2 : last = some today <;> simp [computeReward, h1, h2, h3]

/-! ### Claim theorems -/

/-- C3: when `last_activity_date` equals yesterday (today minus one
day), the new streak is the old streak plus 1 and the award is 6
(base 1 plus streak bonus 5). -/
theorem reward_yesterday_increments_streak (last : Option Int)
    (streak today : Int) (h : last = some (today - 1)) :
    computeReward last streak today = (6, streak + 1) := by
  simp [computeReward, h]

/-- Witness for C3 at `last = some 9`, `streak = 2`, `today = 10`. -/
theorem reward_yesterday_increments_streak_witness :
    computeReward (some 9) 2 10 = (6, 2 + 1) :=
  reward_yesterday_increments_streak (some 9) 2 10 (by decide)

/-- C4: when `last_activity_date` equals today, the streak is
unchanged and the award is exactly 1 (no same-day compounding). -/
theorem reward_same_day_keeps_streak (last : Option Int)
    (streak today : Int) (h : last = some today) :
    computeReward last streak today = (1, streak) := by
  have h3 : ¬ today = today - 1 := by omega
  simp [computeReward, h, h3]

/-- Witness for C4 at `last = some 10`, `streak = 4`, `today = 10`. -/
theorem reward_same_day_keeps_streak_witness :
    computeReward (some 10) 4 10 = (1, 4) :=
  reward_same_day_keeps_streak (some 10) 4 10 rfl

/-- C5: when `last_activity_date` is neither today nor yesterday
(a gap of two or more days, or no recorded activity date), the streak
resets to 1 and the award is the base 1. -/
theorem reward_gap_resets_streak (last : Option Int)
    (streak today : Int) (h1 : last ≠ some today)
    (h2 : last ≠ some (today - 1)) :
    computeReward last streak today = (1, 1) := by
  simp [computeReward, h1, h2]

/-- Witness for C5 at `last = none`, `streak = 7`, `today = 10`. -/
theorem reward_gap_resets_streak_witness :
    computeReward none 7 10 = (1, 1) :=
  reward_gap_resets_streak none 7 10 (by decide) (by decide)

/-- C8: a first message of at most 50 characters becomes the title
unchanged; a longer one yields its first 47 characters followed by the
3-character ellipsis marker, 50 characters in total. -/
theorem autoTitle_truncation (msg : List Char) :
    (msg.length ≤ 50 → autoTitle msg = msg) ∧
    (msg.length > 50 →
      autoTitle msg = msg.take 47 ++ ellipsisMarker ∧
      (autoTitle msg).length = 50) := by
  refine ⟨fun h => ?_, fun h => ?_⟩
  · rw [autoTitle, if_neg (by omega)]
  · rw [autoTitle, if_pos h]
    refine ⟨rfl, ?_⟩
    rw [List.length_append, List.length_take]
    simp only [ellipsisMarker, List.length_cons, List.length_nil]
    omega

/-- Witness for C8 on a 60-character message. -/
theorem autoTitle_truncation_witness :
    autoTitle (List.replicate 60 'a') =
      (List.replicate 60 'a').take 47 ++ ellipsisMarker ∧
    (autoTitle (List.replicate 60 'a')).length = 50 :=
  (autoTitle_truncation (List.replicate 60 'a')).2 (by decide)

/-- C1: the orchestrator's ledger update computes the new balance as
max(0, total_points + pointsAwarded - pointsCost), and for any
sequence of serve-side awards/boost charges and shop purchases,
starting from a non-negative balance, the stored `total_points` never
goes negative. -/
theorem total_points_never_negative :
    (∀ (up : UserPoints) (today : Int) (boost : Bool),
      (applyServeReward up today boost).total_points =
        max 0 (up.total_points +
          (computeReward up.last_activity_date up.current_streak today).1 -
          (if boost then 10 else 0))) ∧
    (∀ up : UserPoints, 0 ≤ up.total_points →
      ∀ ops : List LedgerOp, 0 ≤ (List.foldl applyOp up ops).total_points) := by
  refine ⟨fun up today boost => rfl, fun up h ops => ?_⟩
  induction ops generalizing up with
  | nil => exact h
  | cons op rest ih =>
    refine ih _ ?_
    cases op with
    | serveUpdate today boost => exact le_max_left 0 _
    | purchase cost =>
      by_cases hc : up.total_points < cost
      · simpa [applyOp, purchaseItem, hc] using h
      · simp only [applyOp, purchaseItem, if_neg hc]
        omega

/-- Witness for C1: an award, an unaffordable boost charge and a
purchase starting from a zero balance. -/
theorem total_points_never_negative_witness :
    0 ≤ (List.foldl applyOp ⟨0, 0, 0, none⟩
      [LedgerOp.serveUpdate 5 true, LedgerOp.serveUpdate 6 false,
       LedgerOp.purchase 10]).total_points :=
  total_points_never_negative.2 ⟨0, 0, 0, none⟩ (by decide) _

/-- C2: a boosted request from a user whose balance is below the boost
cost is not rejected: the provider's reply is served, the 10-point
boost cost is charged, and the balance is clamped via max 0 rather
than going negative. -/
theorem boost_low_balance_still_served (message : String) (style : Style)
    (today : Int) (rt : Nat) (g : GeminiResponse) (db : Db) (up : UserPoints)
    (c : String) (cs : List String)
    (hm : message ≠ "") (hok : g.ok = true) (hcand : g.candidates = c :: cs)
    (hup : db.user_points = some up) (hlow : up.total_points < 10) :
    ∃ resp : ChatResponse,
      (serve true message true style true today rt g db).2 = Except.ok resp ∧
      resp.response = c ∧
      ∃ up2 : UserPoints,
        (serve true message true style true today rt g db).1.user_points =
          some up2 ∧
        up2.points_spent = up.points_spent + 10 ∧
        up2.total_points = max 0 (up.total_points + resp.pointsAwarded - 10) ∧
        0 ≤ up2.total_points := by
  rw [serve_ok_some message style true today rt g db up hm hok c cs hcand hup]
  refine ⟨_, rfl, rfl, applyServeReward up today true, rfl, ?_, ?_, ?_⟩
  · simp [applyServeReward]
  · simp [applyServeReward]
  · simp only [applyServeReward]
    exact le_max_left 0 _

/-- Witness for C2: balance 3, boosted technical-style request. -/
theorem boost_low_balance_still_served_witness :
    ∃ resp : ChatResponse,
      (serve true "q" true Style.technical true 10 7 ⟨true, ["r"], 5⟩
        ⟨[], some ⟨3, 0, 0, none⟩⟩).2 = Except.ok resp ∧
      resp.response = "r" ∧
      ∃ up2 : UserPoints,
        (serve true "q" true Style.technical true 10 7 ⟨true, ["r"], 5⟩
          ⟨[], some ⟨3, 0, 0, none⟩⟩).1.user_points = some up2 ∧
        up2.points_spent = (0 : Int) + 10 ∧
        up2.total_points = max 0 ((3 : Int) + resp.pointsAwarded - 10) ∧
        0 ≤ up2.total_points :=
  boost_low_balance_still_served "q" Style.technical 10 7 ⟨true, ["r"], 5⟩
    ⟨[], some ⟨3, 0, 0, none⟩⟩ ⟨3, 0, 0, none⟩ "r" [] (by decide) rfl rfl rfl
    (by decide)

/-- C6: when the provider call has a non-success status or returns
zero candidates, the orchestrator fails with the provider error, the
user message persisted in step 4 remains, and neither an assistant
message nor a ledger update is stored. -/
theorem provider_failure_keeps_user_message (message : String) (style : Style)
    (boost : Bool) (today : Int) (rt : Nat) (g : GeminiResponse) (db : Db)
    (hm : message ≠ "") (hfail : g.ok = false ∨ g.candidates = []) :
    ((serve true message true style boost today rt g db).2 =
        Except.error "Failed to get response from Gemini" ∨
      (serve true message true style boost today rt g db).2 =
        Except.error "No response generated from Gemini") ∧
    (serve true message true style boost today rt g db).1 =
      ⟨db.messages ++ [⟨message, Role.user, none, none, none⟩],
       db.user_points⟩ := by
  cases hok : g.ok with
  | false => refine ⟨Or.inl ?_, ?_⟩ <;> simp [serve, hm, hok]
  | true =>
    have hcand : g.candidates = [] := by
      rcases hfail with h | h
      · rw [hok] at h
        exact absurd h (by simp)
      · exact h
    refine ⟨Or.inr ?_, ?_⟩ <;> simp [serve, hm, hok, hcand]

/-- Witness for C6: the provider returns zero candidates. -/
theorem provider_failure_keeps_user_message_witness :
    ((serve true "hi" true Style.styleDefault false 0 0 ⟨true, [], 0⟩
        ⟨[], none⟩).2 =
        Except.error "Failed to get response from Gemini" ∨
      (serve true "hi" true Style.styleDefault false 0 0 ⟨true, [], 0⟩
        ⟨[], none⟩).2 =
        Except.error "No response generated from Gemini") ∧
    (serve true "hi" true Style.styleDefault false 0 0 ⟨true, [], 0⟩
      ⟨[], none⟩).1 =
      ⟨[] ++ [⟨"hi", Role.user, none, none, none⟩], none⟩ :=
  provider_failure_keeps_user_message "hi" Style.styleDefault false 0 0
    ⟨true, [], 0⟩ ⟨[], none⟩ (by decide) (Or.inr rfl)

/-- C9: a successful orchestrator request returns pointsAwarded equal
to 1 or 6, and the assistant message persisted last carries the same
value as its points_awarded. -/
theorem success_awards_one_or_six (authed : Bool) (message : String)
    (cid : Bool) (style : Style) (boost : Bool) (today : Int) (rt : Nat)
    (g : GeminiResponse) (db : Db) (resp : ChatResponse)
    (h : (serve authed message cid style boost today rt g db).2 =
      Except.ok resp) :
    (resp.pointsAwarded = 1 ∨ resp.pointsAwarded = 6) ∧
    ∃ m : Message,
      (serve authed message cid style boost today rt g db).1.messages.getLast? =
        some m ∧
      m.role = Role.assistant ∧
      m.points_awarded = some resp.pointsAwarded := by
  cases authed with
  | false => simp [serve] at h
  | true =>
    by_cases hm : message = ""
    · simp [serve, hm] at h
    · cases cid with
      | false => simp [serve, hm] at h
      | true =>
        cases hok : g.ok with
        | false => simp [serve, hm, hok] at h
        | true =>
          cases hcand : g.candidates with
          | nil => simp [serve, hm, hok, hcand] at h
          | cons c cs =>
            cases hup : db.user_points with
            | none =>
              rw [serve_ok_none message style boost today rt g db hm hok
                c cs hcand hup] at h ⊢
              simp only [Except.ok.injEq] at h
              subst h
              refine ⟨Or.inl rfl,
                ⟨c, Role.assistant, some g.totalTokenCount, some rt, some 1⟩,
                ?_, rfl, rfl⟩
              simp
            | some up =>
              rw [serve_ok_some message style boost today rt g db up hm hok
                c cs hcand hup] at h ⊢
              simp only [Except.ok.injEq] at h
              subst h
              refine ⟨computeReward_fst up.last_activity_date
                up.current_streak today,
                ⟨c, Role.assistant, some g.totalTokenCount, some rt,
                 some (computeReward up.last_activity_date up.current_streak
                   today).1⟩,
                ?_, rfl, rfl⟩
              simp

/-- Witness for C9: a successful request by a user with no ledger row. -/
theorem success_awards_one_or_six_witness :
    (((⟨"ok", 3, 2, 1⟩ : ChatResponse).pointsAwarded = 1 ∨
      ((⟨"ok", 3, 2, 1⟩ : ChatResponse)).pointsAwarded = 6) ∧
    ∃ m : Message,
      (serve true "hi" true Style.styleDefault false 1 2 ⟨true, ["ok"], 3⟩
        ⟨[], none⟩).1.messages.getLast? = some m ∧
      m.role = Role.assistant ∧
      m.points_awarded = some (⟨"ok", 3, 2, 1⟩ : ChatResponse).pointsAwarded) :=
  success_awards_one_or_six true "hi" true Style.styleDefault false 1 2
    ⟨true, ["ok"], 3⟩ ⟨[], none⟩ ⟨"ok", 3, 2, 1⟩ rfl

/-- C10: a successful request by a user with no ledger row skips the
whole reward/charge block: no ledger row is created, no boost charge
happens, yet the response and the persisted assistant message both
report pointsAwarded = 1. -/
theorem missing_ledger_skips_reward_block (message : String) (style : Style)
    (boost : Bool) (today : Int) (rt : Nat) (g : GeminiResponse) (db : Db)
    (c : String) (cs : List String)
    (hm : message ≠ "") (hok : g.ok = true) (hcand : g.candidates = c :: cs)
    (hup : db.user_points = none) :
    serve true message true style boost today rt g db =
      (⟨db.messages ++ [⟨message, Role.user, none, none, none⟩,
         ⟨c, Role.assistant, some g.totalTokenCount, some rt, some 1⟩], none⟩,
       Except.ok ⟨c, g.totalTokenCount, rt, 1⟩) :=
  serve_ok_none message style boost today rt g db hm hok c cs hcand hup

/-- Witness for C10: a boosted request with no ledger row. -/
theorem missing_ledger_skips_reward_block_witness :
    serve true "hi" true Style.styleDefault true 4 9 ⟨true, ["r"], 5⟩
      ⟨[], none⟩ =
      (⟨[] ++ [⟨"hi", Role.user, none, none, none⟩,
         ⟨"r", Role.assistant, some 5, some 9, some 1⟩], none⟩,
       Except.ok ⟨"r", 5, 9, 1⟩) :=
  missing_ledger_skips_reward_block "hi" Style.styleDefault true 4 9
    ⟨true, ["r"], 5⟩ ⟨[], none⟩ "r" [] (by decide) rfl rfl rfl

/-- C7 is false on the code: regeneration re-invokes the same
chat-with-gemini function, which persists the incoming message as a
new user turn unconditionally, so a duplicate user-role message is
inserted.  Here a conversation holding one user turn "hi" ends up
holding two user-role turns after regenerating. -/
theorem regeneration_duplicates_user_message_cex :
    (((regenerateServe true ⟨"hi", Role.user, none, none, none⟩ true
        Style.styleDefault false 0 3 ⟨true, ["again"], 4⟩
        ⟨[⟨"hi", Role.user, none, none, none⟩,
          ⟨"hello", Role.assistant, some 5, some 7, some 1⟩],
         none⟩).1.messages.countP
      (fun m => m.role == Role.user)) = 2) ∧
    (([⟨"hi", Role.user, none, none, none⟩,
       ⟨"hello", Role.assistant, some 5, some 7, some 1⟩] :
        List Message).countP (fun m => m.role == Role.user) = 1) := by
  constructor <;> rfl

/-- C7 amended: a regeneration request (re-entering the flow with a
stored user message's content) does NOT skip the persist-user-message
step: the flow appends a duplicate user-role message carrying the
stored content and then the new assistant turn. -/
theorem regeneration_appends_duplicate_user_message (stored : Message)
    (style : Style) (boost : Bool) (today : Int) (rt : Nat)
    (g : GeminiResponse) (db : Db) (c : String) (cs : List String)
    (hstored : stored ∈ db.messages) (hrole : stored.role = Role.user)
    (hm : stored.content ≠ "") (hok : g.ok = true)
    (hcand : g.candidates = c :: cs) :
    ∃ pa : Int,
      (regenerateServe true stored true style boost today rt g db).1.messages =
        db.messages ++ [⟨stored.content, Role.user, none, none, none⟩,
          ⟨c, Role.assistant, some g.totalTokenCount, some rt, some pa⟩] := by
  unfold regenerateServe
  cases hup : db.user_points with
  | none =>
    refine ⟨1, ?_⟩
    rw [serve_ok_none stored.content style boost today rt g db hm hok
      c cs hcand hup]
  | some up =>
    refine ⟨(computeReward up.last_activity_date up.current_streak today).1, ?_⟩
    rw [serve_ok_some stored.content style boost today rt g db up hm hok
      c cs hcand hup]

/-- Witness for the amended C7 at the counterexample's input. -/
theorem regeneration_appends_duplicate_user_message_witness :
    ∃ pa : Int,
      (regenerateServe true ⟨"hi", Role.user, none, none, none⟩ true
        Style.styleDefault false 0 3 ⟨true, ["again"], 4⟩
        ⟨[⟨"hi", Role.user, none, none, none⟩,
          ⟨"hello", Role.assistant, some 5, some 7, some 1⟩],
         none⟩).1.messages =
        [⟨"hi", Role.user, none, none, none⟩,
         ⟨"hello", Role.assistant, some 5, some 7, some 1⟩] ++
        [⟨"hi", Role.user, none, none, none⟩,
         ⟨"again", Role.assistant, some 4, some 3, some pa⟩] :=
  regeneration_appends_duplicate_user_message
    ⟨"hi", Role.user, none, none, none⟩ Style.styleDefault false 0 3
    ⟨true, ["again"], 4⟩
    ⟨[⟨"hi", Role.user, none, none, none⟩,
      ⟨"hello", Role.assistant, some 5, some 7, some 1⟩], none⟩
    "again" [] (by decide) rfl (by decide) rfl rfl
